import Mathlib

/-!
Verification development for `py_interface/ns3_util.py` of the ns3-ai helper
layer.  The Python functions are shallowly embedded as Lean definitions:

* Python values that can appear in a setting map are modelled by `PyVal`
  (integers, strings, lists); string formatting (`'{}'.format(v)`) is
  `PyVal.format`, and the `isinstance(value, Iterable)` scalar/list decision
  together with iteration is `toValueList` (a Python string is iterable and
  iterates into its one-character substrings).
* An insertion-ordered Python `dict` is modelled as a `List (key × value)`;
  `dict.popitem()` removes the *last* entry, so the recursion of
  `get_settings` consumes the entry list back to front (`get_settings_rev`
  runs over the reversed list).
* Stateful/OS-facing code (`run_single_ns3`, `run_bulk_ns3`,
  `kill_proc_tree`, `get_free_cpu`) is modelled by making the external
  observations explicit parameters (per-core utilization samples, process
  behaviours, `os.environ`, the path-absolutization function) and returning
  the observable outcome, with Python exceptions rendered as explicit error
  values.
-/

namespace Ns3Util

/-- A Python value as it may occur in a setting map: an integer, a string, or
a (possibly nested) list. -/
inductive PyVal where
  | int (n : Int)
  | str (s : String)
  | pylist (elems : List PyVal)

/-- Python `repr` of a value (used for elements when a list is stringified). -/
def PyVal.reprStr : PyVal → String
  | .int n => toString n
  | .str s => "'" ++ s ++ "'"
  | .pylist es =>
    "[" ++ String.intercalate ", " (es.attach.map (fun e => PyVal.reprStr e.1)) ++ "]"
decreasing_by
  have h := List.sizeOf_lt_of_mem e.2
  simp only [PyVal.pylist.sizeOf_spec]
  omega

/-- Python `'{}'.format(v)` / `str(v)`: integers and strings print plainly,
a list prints as the bracketed comma-separated `repr` of its elements. -/
def PyVal.format : PyVal → String
  | .int n => toString n
  | .str s => s
  | .pylist es => "[" ++ String.intercalate ", " (es.map PyVal.reprStr) ++ "]"

/-- `isinstance(v, Iterable)`: strings and lists are iterable, integers are
not. -/
def PyVal.isIterable : PyVal → Bool
  | .int _ => false
  | .str _ => true
  | .pylist _ => true

/-- The effect of `if not isinstance(value, Iterable): value = [value]`
followed by `for v in value`: a non-iterable becomes a singleton, a list
iterates its elements, and a string iterates its one-character substrings. -/
def toValueList : PyVal → List PyVal
  | .int n => [.int n]
  | .str s => s.data.map (fun c => .str (String.singleton c))
  | .pylist es => es

/-- Python `s.strip('_')`: remove leading and trailing underscores. -/
def stripUnderscore (s : String) : String :=
  String.mk (((s.data.dropWhile (· == '_')).reverse.dropWhile (· == '_')).reverse)

/-- One expansion pair of `get_settings`: a command fragment and a filename
fragment.  A setting map is an insertion-ordered association list. -/
abbrev SettingMap := List (String × PyVal)

/-- The body of `get_settings`, processing entries in the order
`dict.popitem()` produces them (last inserted first); the caller
`get_settings` reverses the map so this recursion is structural.

Mirrors the source: pop one entry, recurse, append `'_'+key` to the
recursively built name format, wrap a non-iterable value into a singleton
list, and for each `v` in the value list (outer loop) and each already
expanded pair (inner loop) emit the extended pair; both the per-pair
filename and the name format are stripped of leading/trailing
underscores. -/
def get_settings_rev : List (String × PyVal) → List (String × String) × String
  | [] => ([("", "")], "")
  | (key, value) :: rest =>
    let r := get_settings_rev rest
    let ret := r.1
    let file_name_format := r.2 ++ "_" ++ key
    let vlist := toValueList value
    let newret := (vlist.map (fun v =>
        ret.map (fun pre =>
          (pre.1 ++ " --" ++ key ++ "=" ++ v.format,
           stripUnderscore (pre.2 ++ "_" ++ v.format))))).flatten
    (newret, stripUnderscore file_name_format)

/-- `get_settings(setting_map)`: expand a setting map into the cross product
of command fragments and filename fragments, together with the filename
format string.  `popitem` consumes the map from the back, hence the
reversal. -/
def get_settings (m : SettingMap) : List (String × String) × String :=
  get_settings_rev m.reverse

/-- `get_setting(setting_map)`: concatenate `' --key=value'` for every entry
in encounter order, without expanding list values. -/
def get_setting (m : SettingMap) : String :=
  m.foldl (fun ret kv => ret ++ " --" ++ kv.1 ++ "=" ++ kv.2.format) ""

/-! ## CPU probe -/

/-- `RESERVE_CPU = 4`: cores that must be idle before a bulk launch fires. -/
def RESERVE_CPU : Nat := 4

/-- `get_free_cpu(perc)`: zip core indices with the per-core utilization
sample, keep the cores strictly below the threshold, and sort ascending by
utilization (Python `sorted` with `key=lambda x: x[1]`).  The 1-second
blocking sample `psutil.cpu_percent(interval=1, percpu=True)` is the
explicit parameter `percpu`; utilization percentages are modelled as
rationals. -/
def get_free_cpu (cpu_num : Nat) (percpu : List ℚ) (perc : ℚ) : List (Nat × ℚ) :=
  (((List.range cpu_num).zip percpu).filter (fun x => x.2 < perc)).mergeSort
    (fun a b => a.2 ≤ b.2)

/-! ## Bulk launch wait loop -/

/-- The inner iterations of `while len(cpus) < RESERVE_CPU: time.sleep(5)`:
the loop body only sleeps, so the list `cpus` tested by the condition never
changes.  `bulk_wait_loop cpus fuel = true` iff the loop has exited after at
most `fuel` sleep iterations. -/
def bulk_wait_loop (cpus : List (Nat × ℚ)) : Nat → Bool
  | 0 => decide (¬ cpus.length < RESERVE_CPU)
  | fuel + 1 =>
    if cpus.length < RESERVE_CPU then bulk_wait_loop cpus fuel else true

/-- The per-pair wait of `run_bulk_ns3`: `cpus = get_free_cpu()` is computed
once, *before* the while loop, so only the first sample (`polls 0`) is ever
consulted; `polls k` is the sample a k-th call of `get_free_cpu` would
return. -/
def run_bulk_wait (polls : Nat → List (Nat × ℚ)) (fuel : Nat) : Bool :=
  bulk_wait_loop (polls 0) fuel

/-! ## Build/launch driver -/

/-- A Python `dict` of environment variables, insertion ordered. -/
abbrev PyDict := List (String × String)

/-- `d[k] = v`: replace in place when the key exists, append otherwise. -/
def dictSet (d : PyDict) (k v : String) : PyDict :=
  if d.any (fun kv => kv.1 == k)
  then d.map (fun kv => if kv.1 == k then (k, v) else kv)
  else d ++ [(k, v)]

/-- `d.update(other)`: set every entry of `other` into `d` in order. -/
def dictUpdate (d other : PyDict) : PyDict :=
  other.foldl (fun acc kv => dictSet acc kv.1 kv.2) d

/-- `d[k]` as an optional lookup. -/
def dictGet (d : PyDict) (k : String) : Option String :=
  (d.find? (fun kv => kv.1 == k)).map (·.2)

/-- The Python exceptions the modelled launch path can raise. -/
inductive RunErr where
  | buildFailed
  | typeError
deriving DecidableEq, Repr

/-- Observable outcome of `run_single_ns3` up to the spawn: the error raised
(if any), the child environment passed to `subprocess.Popen` (if reached),
and the programs spawned. -/
structure RunResult where
  error : Option RunErr
  childEnv : Option PyDict
  spawned : List String
deriving DecidableEq, Repr

/-- `run_single_ns3(path, pname, env=..., build=...)` up to the spawn.

The external world enters as parameters: `abspath` is `os.path.abspath`,
`osEnviron` is `os.environ`, `buildOk` is the exit status of the
`./ns3 build` step run when `build` is true.  Mirrors the source order:

1. `if build and not build_ns3(path): raise RuntimeError(...)`;
2. `if env: env.update(os.environ)` — Python truthiness: an absent (`None`)
   or empty dict is falsy, so only a non-empty dict is merged;
3. `env['LD_LIBRARY_PATH'] = os.path.abspath(os.path.join(path, 'build',
   'lib'))` — item assignment on `None` raises `TypeError`;
4. the spawn itself (executable resolution and profiling wrapping are not
   modelled; `pname` stands for the spawned program). -/
def run_single_ns3 (abspath : String → String) (osEnviron : PyDict)
    (path pname : String) (env : Option PyDict) (build buildOk : Bool) :
    RunResult :=
  if build && !buildOk then
    { error := some .buildFailed, childEnv := none, spawned := [] }
  else
    let env : Option PyDict := match env with
      | some d => if d.isEmpty then some d else some (dictUpdate d osEnviron)
      | none => none
    match env with
    | none => { error := some .typeError, childEnv := none, spawned := [] }
    | some d =>
      let d := dictSet d "LD_LIBRARY_PATH" (abspath (path ++ "/build/lib"))
      { error := none, childEnv := some d, spawned := [pname] }

/-! ## Process tree reaper -/

/-- The psutil exceptions relevant to `kill_proc_tree`. -/
inductive PExc where
  | noSuchProcess
  | timeoutExpired
deriving DecidableEq, Repr

/-- How one process in the tree reacts to the reaper's calls: the result of
`c.name()`, of `c.send_signal(signal.SIGTERM)`, of `c.wait(timeout=10)`, and
of `c.kill()`.  An exception value means the call raises. -/
structure ProcBehavior where
  nameRes : Except PExc String
  termRes : Except PExc Unit
  waitRes : Except PExc Unit
  killRes : Except PExc Unit

/-- Whether `"perf"` occurs as a substring of the process name
(Python `"perf" in c.name()`). -/
def containsPerf (nm : String) : Bool :=
  nm.data.tails.any (fun t => "perf".data.isPrefixOf t)

/-- The body of the per-process `for` loop of `kill_proc_tree`, *inside* the
outer `try`: the `perf` branch sends SIGTERM, waits 10 s, and on
`TimeoutExpired` escalates to `kill()` with `NoSuchProcess` swallowed
(`continue`); any other process is killed outright.  The returned error is
an exception propagating out of the body. -/
def reapOne (b : ProcBehavior) : Except PExc Unit :=
  match b.nameRes with
  | .error e => .error e
  | .ok nm =>
    if containsPerf nm then
      match b.termRes with
      | .error e => .error e
      | .ok _ =>
        match b.waitRes with
        | .ok _ => .ok ()
        | .error .timeoutExpired =>
          match b.killRes with
          | .ok _ => .ok ()
          | .error .noSuchProcess => .ok ()
          | .error e => .error e
        | .error e => .error e
    else
      b.killRes

/-- One iteration of the loop with its outer
`except psutil.NoSuchProcess: continue`: a vanished process is skipped. -/
def reapStep (b : ProcBehavior) : Except PExc Unit :=
  match reapOne b with
  | .error .noSuchProcess => .ok ()
  | r => r

/-- The whole per-process loop of `kill_proc_tree` over the enumerated tree
`ch`; returns the number of processes handled, or the first uncaught
exception. -/
def kill_proc_tree_loop : List ProcBehavior → Except PExc Nat
  | [] => .ok 0
  | b :: rest =>
    match reapStep b with
    | .error e => .error e
    | .ok _ =>
      match kill_proc_tree_loop rest with
      | .ok n => .ok (n + 1)
      | .error e => .error e

/-- A behaviour is realistic when `TimeoutExpired` can only come from the
`wait` call: `name`, `send_signal` and `kill` never raise it. -/
def isTimeoutErr : Except PExc Unit → Bool
  | .error .timeoutExpired => true
  | _ => false

/-- `nameRes` variant of `isTimeoutErr`. -/
def isTimeoutErrS : Except PExc String → Bool
  | .error .timeoutExpired => true
  | _ => false

/-- Realism predicate on a process behaviour. -/
def realistic (b : ProcBehavior) : Bool :=
  !isTimeoutErrS b.nameRes && !isTimeoutErr b.termRes && !isTimeoutErr b.killRes

/-! ## Helper lemmas -/

/-- The pair count produced by the recursion equals the product of the
iterated cardinalities of the entries it processes. -/
theorem length_get_settings_rev (m : List (String × PyVal)) :
    (get_settings_rev m).1.length =
      (m.map (fun kv => (toValueList kv.2).length)).prod := by
  induction m with
  | nil => simp [get_settings_rev]
  | cons kv rest ih =>
    obtain ⟨key, value⟩ := kv
    simp only [get_settings_rev, List.map_cons, List.prod_cons,
      List.length_flatten, List.map_map]
    simp only [Function.comp_def, List.length_map]
    rw [List.map_const', List.sum_replicate, smul_eq_mul, ih]

/-! ## Claim theorems -/

/-- C1: for every setting map, the number of (command-fragment,
filename-fragment) pairs returned by `get_settings` equals the product of
the iterated cardinalities of all values in the map — a list contributes its
length and a scalar (non-iterable) value contributes 1 — and the empty map
produces exactly one pair of two empty strings. -/
theorem get_settings_count (m : SettingMap) :
    (get_settings m).1.length =
        (m.map (fun kv => (toValueList kv.2).length)).prod ∧
      get_settings [] = ([("", "")], "") ∧
      (∀ n : Int, (toValueList (.int n)).length = 1) ∧
      (∀ es : List PyVal, (toValueList (.pylist es)).length = es.length) := by
  refine ⟨?_, rfl, fun n => rfl, fun es => rfl⟩
  rw [get_settings, length_get_settings_rev, List.map_reverse,
    List.prod_reverse]

/-- C2 counterexample: on the map `{a: [1,2], b: [10,20,30]}` the pairs are
*not* ordered with the outer loop over the earlier-recursed keys'
combinations and the inner loop over the current key's values; that claimed
ordering is refuted at this concrete input. -/
theorem get_settings_order_claim_false :
    (get_settings [("a", .pylist [.int 1, .int 2]),
                   ("b", .pylist [.int 10, .int 20, .int 30])]).1 ≠
      [(" --a=1 --b=10", "1_10"), (" --a=1 --b=20", "1_20"),
       (" --a=1 --b=30", "1_30"), (" --a=2 --b=10", "2_10"),
       (" --a=2 --b=20", "2_20"), (" --a=2 --b=30", "2_30")] := by
  decide

/-- C2 (amended): for every setting map with at least one key, the pairs are
ordered with the *outer* loop ranging over the current (last-popped) key's
values and the *inner* loop ranging over the earlier-recursed pairs; a map
with keys of 2 and 3 values yields exactly 6 pairs in that order. -/
theorem get_settings_order :
    (∀ (key : String) (value : PyVal) (rest : List (String × PyVal)),
        (get_settings_rev ((key, value) :: rest)).1 =
          ((toValueList value).map (fun v =>
            (get_settings_rev rest).1.map (fun pre =>
              (pre.1 ++ " --" ++ key ++ "=" ++ v.format,
               stripUnderscore (pre.2 ++ "_" ++ v.format))))).flatten) ∧
      (get_settings [("a", .pylist [.int 1, .int 2]),
                     ("b", .pylist [.int 10, .int 20, .int 30])]).1 =
        [(" --a=1 --b=10", "1_10"), (" --a=2 --b=10", "2_10"),
         (" --a=1 --b=20", "1_20"), (" --a=2 --b=20", "2_20"),
         (" --a=1 --b=30", "1_30"), (" --a=2 --b=30", "2_30")] :=
  ⟨fun _ _ _ => rfl, by decide⟩

/-- C3 counterexample: for the map `{a: [1,2], b: 3}` the returned
filename-format string is not `"b_a"`. -/
theorem get_settings_fnf_claim_false :
    (get_settings [("a", .pylist [.int 1, .int 2]), ("b", .int 3)]).2 ≠
      "b_a" := by
  decide

/-- C3 (amended): for the input map `{a: [1,2], b: 3}`, `get_settings`
yields exactly 2 pairs, both of whose command fragments contain `--b=3`,
one containing `--a=1` and the other `--a=2`, and the returned
filename-format string is `"a_b"` — key names joined in map encounter
order (the key popped last, i.e. the first map entry, comes first), with
leading/trailing underscores trimmed. -/
theorem get_settings_ab_example :
    get_settings [("a", .pylist [.int 1, .int 2]), ("b", .int 3)] =
      ([(" --a=1 --b=3", "1_3"), (" --a=2 --b=3", "2_3")], "a_b") := by
  rfl

/-- The wait loop's exit condition never changes: its body only sleeps, so
whether it has exited after any number of iterations is decided by the one
`cpus` list computed before the loop. -/
theorem bulk_wait_loop_const (cpus : List (Nat × ℚ)) (fuel : Nat) :
    bulk_wait_loop cpus fuel = decide (¬ cpus.length < RESERVE_CPU) := by
  induction fuel with
  | zero => rfl
  | succ n ih =>
    by_cases h : cpus.length < RESERVE_CPU
    · simp [bulk_wait_loop, h, ih]
    · simp [bulk_wait_loop, h]

/-- A poll history whose first sample reports no idle core but whose every
later sample reports 4 idle cores. -/
def badPolls : Nat → List (Nat × ℚ) :=
  fun k => if k = 0 then [] else [(0, 0), (1, 0), (2, 0), (3, 0)]

/-- C4 (code bug, evaluated at the failing input): `run_bulk_ns3` computes
`cpus = get_free_cpu()` once, *before* the `while` loop, and the loop body
only sleeps — so when the first poll reports fewer than `RESERVE_CPU` idle
cores the wait loop never terminates, even though every later poll would
report 4 idle cores (so the claimed re-polling loop would exit). -/
theorem run_bulk_wait_never_exits :
    (∀ fuel : Nat, run_bulk_wait badPolls fuel = false) ∧
      RESERVE_CPU ≤ (badPolls 1).length := by
  refine ⟨fun fuel => ?_, by decide⟩
  rw [run_bulk_wait, bulk_wait_loop_const]
  decide

/-- C5 (code bug, evaluated at the failing input): a call of
`run_single_ns3` with the default `env=None` and a successful (or skipped)
build reaches `env['LD_LIBRARY_PATH'] = ...` with `env` still `None`, which
raises `TypeError`; no environment is built and no child is spawned, contrary
to the claim that the injection step succeeds for the default `env=None`. -/
theorem run_single_env_none_raises (abspath : String → String)
    (osEnviron : PyDict) (path pname : String) :
    run_single_ns3 abspath osEnviron path pname none true true =
        { error := some .typeError, childEnv := none, spawned := [] } ∧
      run_single_ns3 abspath osEnviron path pname none false false =
        { error := some .typeError, childEnv := none, spawned := [] } :=
  ⟨rfl, rfl⟩

/-- C6: a call of `run_single_ns3` with `build=True` whose build step fails
(non-zero exit code) raises the build-failure error as its first action:
the result carries `buildFailed`, no child environment is ever constructed,
and no child process is spawned — for every caller-given environment. -/
theorem run_single_build_failure (abspath : String → String)
    (osEnviron : PyDict) (path pname : String) (env : Option PyDict) :
    run_single_ns3 abspath osEnviron path pname env true false =
      { error := some .buildFailed, childEnv := none, spawned := [] } := by
  rfl

/-- Under a realistic behaviour the loop body never lets an exception out:
`NoSuchProcess` is always caught (by the inner handler during escalation, or
by the outer handler otherwise), and `TimeoutExpired` can only come from the
`wait` call, where it is handled by escalating to `kill()`. -/
theorem reapStep_ok (b : ProcBehavior) (h : realistic b = true) :
    reapStep b = .ok () := by
  obtain ⟨nr, tr, wr, kr⟩ := b
  simp only [realistic, Bool.and_eq_true, Bool.not_eq_true'] at h
  obtain ⟨⟨h1, h2⟩, h3⟩ := h
  cases nr with
  | error e => cases e <;> simp_all [reapStep, reapOne, isTimeoutErrS]
  | ok nm =>
    by_cases hp : containsPerf nm
    · cases tr with
      | error e => cases e <;> simp_all [reapStep, reapOne, isTimeoutErr, hp]
      | ok u =>
        cases wr with
        | ok u2 => simp [reapStep, reapOne, hp]
        | error e =>
          cases e with
          | noSuchProcess => simp [reapStep, reapOne, hp]
          | timeoutExpired =>
            cases kr with
            | ok u3 => simp [reapStep, reapOne, hp]
            | error e2 =>
              cases e2 <;> simp_all [reapStep, reapOne, isTimeoutErr, hp]
    · cases kr with
      | ok u => simp [reapStep, reapOne, hp]
      | error e => cases e <;> simp_all [reapStep, reapOne, isTimeoutErr, hp]

/-- C7: for every process tree whose behaviours are realistic (a timeout can
only arise from the `wait` call), the reaper's loop handles every process —
a process that no longer exists at the moment a termination action is taken,
including during the graceful-to-forceful escalation for a `perf`-named
process, is skipped and the loop continues — and the call never raises
because of a vanished process. -/
theorem kill_proc_tree_skips_vanished (ch : List ProcBehavior)
    (h : ∀ b ∈ ch, realistic b = true) :
    kill_proc_tree_loop ch = .ok ch.length := by
  induction ch with
  | nil => rfl
  | cons b rest ih =>
    have hb : reapStep b = .ok () := reapStep_ok b (h b (by simp))
    have hr := ih (fun x hx => h x (List.mem_cons_of_mem _ hx))
    simp [kill_proc_tree_loop, hb, hr]

/-- C7 witness: a tree consisting of a `perf` process that ignores SIGTERM
for 10 seconds and has vanished by the time of the forceful kill, an
ordinary process that has vanished at its kill, and a process vanished
already when its name is read, is handled completely without any exception. -/
theorem kill_proc_tree_skips_vanished_witness :
    kill_proc_tree_loop
        [⟨.ok "perf", .ok (), .error .timeoutExpired, .error .noSuchProcess⟩,
         ⟨.ok "ns3.36-sim", .ok (), .ok (), .error .noSuchProcess⟩,
         ⟨.error .noSuchProcess, .ok (), .ok (), .ok ()⟩] = .ok 3 :=
  kill_proc_tree_skips_vanished
    [⟨.ok "perf", .ok (), .error .timeoutExpired, .error .noSuchProcess⟩,
     ⟨.ok "ns3.36-sim", .ok (), .ok (), .error .noSuchProcess⟩,
     ⟨.error .noSuchProcess, .ok (), .ok (), .ok ()⟩]
    (by decide)

/-- C8: for every threshold and every per-core utilization sample,
`get_free_cpu` returns only cores whose sampled utilization is strictly
below the threshold, and the returned sequence is sorted ascending by
utilization. -/
theorem get_free_cpu_spec (cpu_num : Nat) (percpu : List ℚ) (perc : ℚ) :
    (∀ c ∈ get_free_cpu cpu_num percpu perc, c.2 < perc) ∧
      (get_free_cpu cpu_num percpu perc).Pairwise (fun a b => a.2 ≤ b.2) := by
  constructor
  · intro c hc
    rw [get_free_cpu, List.mem_mergeSort] at hc
    exact of_decide_eq_true (List.mem_filter.mp hc).2
  · have htrans : ∀ a b c : Nat × ℚ,
        decide (a.2 ≤ b.2) = true → decide (b.2 ≤ c.2) = true →
          decide (a.2 ≤ c.2) = true := by
      intro a b c h1 h2
      simp only [decide_eq_true_eq] at h1 h2 ⊢
      exact le_trans h1 h2
    have htot : ∀ a b : Nat × ℚ,
        (decide (a.2 ≤ b.2) || decide (b.2 ≤ a.2)) = true := by
      intro a b
      simp [le_total]
    have hs := List.sorted_mergeSort htrans htot
      (((List.range cpu_num).zip percpu).filter (fun x => decide (x.2 < perc)))
    exact hs.imp (fun hab => of_decide_eq_true hab)

/-- C9: `get_setting` concatenates `' --key=value'` for every entry of the
map in encounter order, with no expansion of list values; in particular on
`{x: 1, y: 2}` it returns exactly `" --x=1 --y=2"` (leading space present,
no trailing space). -/
theorem get_setting_concat (m : SettingMap) :
    get_setting m =
        String.join (m.map (fun kv => " --" ++ kv.1 ++ "=" ++ kv.2.format)) ∧
      get_setting [("x", .int 1), ("y", .int 2)] = " --x=1 --y=2" := by
  refine ⟨?_, rfl⟩
  have hfun : (fun (ret : String) (kv : String × PyVal) =>
        ret ++ " --" ++ kv.1 ++ "=" ++ kv.2.format) =
      fun (ret : String) (kv : String × PyVal) =>
        ret ++ (" --" ++ kv.1 ++ "=" ++ kv.2.format) := by
    funext ret kv
    simp [String.append_assoc]
  rw [get_setting, hfun]
  unfold String.join
  rw [List.foldl_map]

/-- C10: in `get_settings` the scalar/list decision is the Python iterable
protocol, so a string value is treated as a value list: a single-key map
whose value is the string `s` contributes exactly `s.length` pairs, one per
character — concretely, the value `"abc"` yields three pairs, one per
character, not one pair for the whole string. -/
theorem get_settings_string_value (s : String) :
    (get_settings [("k", .str s)]).1.length = s.length ∧
      (get_settings [("k", .str "abc")]).1 =
        [(" --k=a", "a"), (" --k=b", "b"), (" --k=c", "c")] := by
  refine ⟨?_, by decide⟩
  have h := length_get_settings_rev [("k", PyVal.str s)]
  simp only [List.map_cons, List.map_nil, List.prod_cons, List.prod_nil,
    mul_one, toValueList, List.length_map] at h
  rw [get_settings]
  simp only [List.reverse_cons, List.reverse_nil, List.nil_append]
  rw [h]
  rfl

end Ns3Util
